import Mathlib

/-!
Shallow embedding of the scan orchestration and result-normalization
pipeline of grepmarx (src/app/analysis/util.py), together with theorems
checking the natural-language specification against it.

Machine-level conventions of the embedding:
* Python dicts decoded from scanner JSON become Lean structures whose
  optional keys are Option fields (the code tests presence with
  `if key in dict`).
* SQLAlchemy model objects (app/analysis/models.py is not part of the
  sources) become plain structures; assigning a plain Python list to a
  relationship collection replaces the collection's membership with the
  list's current elements (a snapshot), while later in-place mutation of
  a shared element object remains visible through the collection.
* Timestamps are opaque naturals supplied by the caller, the exception
  machinery is an explicit Except monad, and the filesystem is passed
  explicitly (a list of paths, or an association list name -> contents).
-/

/-- Project status values.  `app/constants.py` is not under the sources;
modelled from the spec: the closed status set
PENDING / ANALYZING / FINISHED / ERROR / ABORTED of section 4.5. -/
inductive Status where
  | pending
  | analyzing
  | finished
  | error
  | aborted
deriving DecidableEq, Repr

/-- Modelled from the spec: the projects-source root directory constant
PROJECTS_SRC_PATH of `app/constants.py` (not under the sources); the spec
describes the layout `<root>/<project_id>/<extract_dir>/...`. -/
def PROJECTS_SRC_PATH : String := "data/projects"

/-- Modelled from the spec: the extraction folder name constant
EXTRACT_FOLDER_NAME of `app/constants.py` (not under the sources). -/
def EXTRACT_FOLDER_NAME : String := "extract"

/-- Modelled from the spec: the canonical rule extension, the first
element of the RULE_EXTENSIONS constant of `app/constants.py` (not under
the sources), used as `next(iter(RULE_EXTENSIONS))` by import_rules. -/
def CANONICAL_RULE_EXTENSION : String := ".yaml"

/-- Modelled from the spec: the rules root directory constant RULES_PATH
of `app/constants.py` (not under the sources). -/
def RULES_PATH : String := "app/rules"

/-- Modelled from the spec: the severity enum value for high severity
(SEVERITY_HIGH in `app/constants.py`, not under the sources). -/
def SEVERITY_HIGH : String := "high"

/-- Modelled from the spec: the severity enum value for medium severity
(SEVERITY_MEDIUM in `app/constants.py`, not under the sources). -/
def SEVERITY_MEDIUM : String := "medium"

/-- Modelled from the spec: the name of the depscan newline-delimited
JSON result file (DEPSCAN_RESULT_FILE in `app/constants.py`, not under
the sources). -/
def DEPSCAN_RESULT_FILE : String := "depscan-report.json"

/-- Position of an occurrence (app/analysis/models.py): line/column
start/end as reported by semgrep. -/
structure Position where
  line_start : Nat
  line_end : Nat
  column_start : Nat
  column_end : Nat
deriving DecidableEq, Repr

/-- One concrete match location attached to a vulnerability. -/
structure Occurence where
  file_path : String
  match_string : String
  position : Position
deriving DecidableEq, Repr

/-- One distinct finding type, identified by its rule title. -/
structure Vulnerability where
  title : String
  description : String := ""
  cwe : String := ""
  owasp : String := ""
  references : String := ""
  severity : String := ""
  occurences : List Occurence := []
deriving DecidableEq, Repr

/-- One vulnerable third-party package found by depscan. -/
structure VulnerableDependency where
  common_id : String
  package : String
  purl : String
  package_type : String
  package_usage : String
  version : String
  fix_version : String
  severity : String
  cvss_score : String
  short_description : String
  related_urls : String
deriving DecidableEq, Repr

/-- One tag produced by the Application Inspector scan. -/
structure InspectorTag where
  start_line : Nat
  start_column : Nat
  end_column : Nat
  end_line : Nat
  excerpt : String
  filename : String
  severity : String := ""
deriving DecidableEq, Repr

/-- One Application Inspector finding type, grouping tags by rule name. -/
structure Match where
  title : String
  description : String := ""
  pattern : String := ""
  filename : String := ""
  tags : String := ""
  tag : List InspectorTag := []
deriving DecidableEq, Repr

/-!  ## Path-prefix stripping (load_occurence, util.py:406-407)

The code strips the scan-root prefix with
`re.sub(PROJECTS_SRC_PATH + "[\\/]?\d+[\\/]" + EXTRACT_FOLDER_NAME + "[\\/]?", "", path)`.
The regex is embedded exactly: the literal root, an optional slash or
backslash, one or more digits, a mandatory slash or backslash, the
literal extraction folder name, an optional slash or backslash.  For
this pattern greedy matching without backtracking coincides with
Python's leftmost greedy semantics, because adjacent pieces draw from
disjoint character classes (digits, slashes, the folder-name letters).
`reSub` removes every non-overlapping leftmost match, as re.sub does. -/

/-- Check whether a character is matched by the regex class `[\/]`. -/
def isSlashChar (c : Char) : Bool := c = '/' || c = '\\'

/-- Match a literal character sequence at the head of the input,
returning the remainder on success. -/
def stripLit : List Char → List Char → Option (List Char)
  | [], s => some s
  | _ :: _, [] => none
  | p :: ps, c :: cs => if p = c then stripLit ps cs else none

/-- Greedily consume the optional `[\/]?` piece of the pattern. -/
def optSlash : List Char → List Char
  | [] => []
  | c :: cs => if isSlashChar c then cs else c :: cs

/-- Match the whole strip pattern at the head of the input, returning the
remainder after the match on success. -/
def matchStripPatternAt (root extract : List Char) (s : List Char) :
    Option (List Char) :=
  match stripLit root s with
  | none => none
  | some s1 =>
    match optSlash s1 with
    | [] => none
    | c :: cs =>
      if c.isDigit then
        match cs.dropWhile Char.isDigit with
        | [] => none
        | d :: ds =>
          if isSlashChar d then
            match stripLit extract ds with
            | none => none
            | some s4 => some (optSlash s4)
          else none
      else none

/-- Fuel-driven single pass of re.sub with empty replacement: at each
position, if the pattern matches, drop the matched characters and
continue after them; otherwise keep the character and move on.  The fuel
only serves structural recursion; `length + 1` fuel is always enough
because every match consumes at least one character. -/
def reSubAux (root extract : List Char) : Nat → List Char → List Char
  | 0, s => s
  | _ + 1, [] => []
  | fuel + 1, c :: cs =>
    match matchStripPatternAt root extract (c :: cs) with
    | some rest => reSubAux root extract fuel rest
    | none => c :: reSubAux root extract fuel cs

/-- Embedding of `re.sub(pattern, "", s)` for the strip pattern. -/
def reSub (root extract : List Char) (s : List Char) : List Char :=
  reSubAux root extract (s.length + 1) s

/-- Decide whether the strip pattern matches anywhere in the input. -/
def hasStripMatch (root extract : List Char) : List Char → Bool
  | [] => (matchStripPatternAt root extract []).isSome
  | c :: cs =>
    (matchStripPatternAt root extract (c :: cs)).isSome ||
      hasStripMatch root extract cs

/-- The concrete strip applied by load_occurence (util.py:406-407):
`re.sub(PROJECTS_SRC_PATH + "[\\/]?\d+[\\/]" + EXTRACT_FOLDER_NAME + "[\\/]?", "", path)`. -/
def stripScanRootFromPath (path : String) : String :=
  String.mk (reSub PROJECTS_SRC_PATH.data EXTRACT_FOLDER_NAME.data path.data)

/-!  ## Semgrep result records and the SAST normalizer (util.py:230-417)

A semgrep JSON `results` element is a dict with required keys
`check_id`, `path`, `start`/`end` (each with `line` and `col`) and
`extra` (with required `lines` and optional `message` / `metadata`).
Optional keys become Option fields; the `metadata` values `cwe` and
`owasp` may be a single string or a list (the code keeps the head of a
list, so a list value is embedded with an explicit head). -/

/-- A JSON metadata value that is either one string or a list of
strings; the list form carries its head explicitly because the code
accesses element 0 of it. -/
inductive StrOrList where
  | str (s : String)
  | list (head : String) (tail : List String)
deriving DecidableEq, Repr

/-- The optional `extra.metadata` dict of a semgrep result. -/
structure SemgrepMetadata where
  cwe : Option StrOrList := none
  owasp : Option StrOrList := none
  references : Option (List String) := none
deriving DecidableEq, Repr

/-- One element of the `results` array of the semgrep JSON output. -/
structure SemgrepResult where
  check_id : String
  path : String
  start_line : Nat
  start_col : Nat
  end_line : Nat
  end_col : Nat
  lines : String
  message : Option String := none
  metadata : Option SemgrepMetadata := none
deriving DecidableEq, Repr

/-- load_vulnerability (util.py:363-394): create a Vulnerability from a
semgrep result element.  `generate_severity` lives in app/rules/util.py,
which is not under the sources, so it is taken as a parameter. -/
def load_vulnerability (generate_severity : String → String)
    (title : String) (r : SemgrepResult) : Vulnerability :=
  let v : Vulnerability := { title := title }
  let v := match r.message with
    | some m => { v with description := m }
    | none => v
  match r.metadata with
  | none => v
  | some md =>
    let v := match md.cwe with
      | some (StrOrList.str s) => { v with cwe := s }
      | some (StrOrList.list h _) => { v with cwe := h }
      | none => v
    let v := match md.owasp with
      | some (StrOrList.str s) => { v with owasp := s }
      | some (StrOrList.list h _) => { v with owasp := h }
      | none => v
    let v := match md.references with
      | some refs => { v with references := String.intercalate " " refs }
      | none => v
    { v with severity := generate_severity v.cwe }

/-- load_occurence (util.py:397-417): create an Occurence from a semgrep
result element, stripping the scan-root prefix from the path and copying
the start/end positions verbatim. -/
def load_occurence (r : SemgrepResult) : Occurence :=
  { file_path := stripScanRootFromPath r.path
    match_string := r.lines
    position :=
      { line_start := r.start_line
        line_end := r.end_line
        column_start := r.start_col
        column_end := r.end_col } }

/-- The value of `check_id.split(".")[-1]`: the last dot-separated segment, i.e. the
characters after the last dot (the whole string when it has no dot,
empty when it ends with a dot). -/
def lastDotSegment (s : String) : String :=
  String.mk ((s.data.reverse.takeWhile (fun c => c ≠ '.')).reverse)

/-- Append an occurrence to the first vulnerability carrying the given
title (`e_vulns[0]` followed by `e_vuln.occurences.append(...)`). -/
def appendOccurenceToFirst :
    List Vulnerability → String → Occurence → List Vulnerability
  | [], _, _ => []
  | v :: vs, t, o =>
    if v.title = t then
      { v with occurences := v.occurences ++ [o] } :: vs
    else
      v :: appendOccurenceToFirst vs t o

/-- One iteration of the loop of load_scan_results (util.py:244-257).
The state is the local `vulns` list together with the length the
collection had when `analysis.vulnerabilities = vulns` last executed
(none when the assignment has not executed).  The assignment statement
sits inside the duplicate-title branch in the source, so it only runs
when a record repeats an already-seen title; assigning snapshots the
list's membership, while occurrence appends mutate the shared
vulnerability objects and hence stay visible, which the final
`take` reproduces. -/
def load_scan_results_step (generate_severity : String → String)
    (st : List Vulnerability × Option Nat) (c : SemgrepResult) :
    List Vulnerability × Option Nat :=
  let title := lastDotSegment c.check_id
  if (st.1.filter (fun v => v.title = title)).isEmpty then
    let n_vuln := load_vulnerability generate_severity title c
    (st.1 ++ [{ n_vuln with occurences := n_vuln.occurences ++ [load_occurence c] }],
      st.2)
  else
    let vulns := appendOccurenceToFirst st.1 title (load_occurence c)
    (vulns, some vulns.length)

/-- The analysis-side scan state (app/analysis/models.py is not under
the sources; fields follow the attributes the pipeline reads/writes). -/
structure ProjectState where
  status : Status
  error_message : String := ""
  occurences_count : Nat := 0
  risk_level : Nat := 0
deriving DecidableEq, Repr

structure AnalysisState where
  started_on : Option Nat := none
  finished_on : Option Nat := none
  task_id : String := ""
  vulnerabilities : List Vulnerability := []
  vulnerable_dependencies : List VulnerableDependency := []
  project : ProjectState
deriving DecidableEq, Repr

structure AppInspectorState where
  match_list : List Match := []
deriving DecidableEq, Repr

/-- load_scan_results (util.py:230-257): populate an Analysis with the
semgrep results.  The input is the parsed payload: `none` embeds an
empty output string, a null JSON document, or a document without a
`results` key (all of which leave the analysis untouched); `some rs`
embeds a document whose `results` array holds `rs`. -/
def load_scan_results (generate_severity : String → String)
    (analysis : AnalysisState) (semgrep_output : Option (List SemgrepResult)) :
    AnalysisState :=
  match semgrep_output with
  | none => analysis
  | some results =>
    match results.foldl (load_scan_results_step generate_severity) ([], none) with
    | (_, none) => analysis
    | (vulns, some n) => { analysis with vulnerabilities := vulns.take n }

/-- One line of the depscan newline-delimited JSON result file. -/
structure DepscanRecord where
  id : String
  package : String
  purl : String
  package_type : String
  package_usage : String
  version : String
  fix_version : String
  severity : String
  cvss_score : String
  short_description : String
  related_urls : List String
deriving DecidableEq, Repr

/-- The VulnerableDependency built from one depscan record
(util.py:270-283). -/
def load_vulnerable_dependency (c : DepscanRecord) : VulnerableDependency :=
  { common_id := c.id
    package := c.package
    purl := c.purl
    package_type := c.package_type
    package_usage := c.package_usage
    version := c.version
    fix_version := c.fix_version
    severity := c.severity
    cvss_score := c.cvss_score
    short_description := c.short_description
    related_urls := String.intercalate "," c.related_urls }

/-- load_sca_scan_results (util.py:260-284): one VulnerableDependency
per record, no dedup.  The collection assignment sits inside the loop in
the source, so it runs once per record: with at least one record the
collection ends up replaced by the full list, with zero records it is
left untouched. -/
def load_sca_scan_results (analysis : AnalysisState)
    (sca_results : List DepscanRecord) : AnalysisState :=
  (sca_results.foldl
    (fun (st : List VulnerableDependency × AnalysisState) c =>
      let vuln_deps := st.1 ++ [load_vulnerable_dependency c]
      (vuln_deps, { st.2 with vulnerable_dependencies := vuln_deps }))
    ([], analysis)).2

/-- One element of the `metaData.detailedMatchList` array of the
Application Inspector JSON output. -/
structure DetailedMatch where
  ruleName : String
  ruleDescription : Option String := none
  pattern : Option String := none
  fileName : Option String := none
  tags : Option (List String) := none
  startLocationLine : Nat
  startLocationColumn : Nat
  endLocationColumn : Nat
  endLocationLine : Nat
  excerpt : String
  severity : Option String := none
deriving DecidableEq, Repr

/-- load_match (util.py:316-338): create a Match from a detailed-match
element. -/
def load_match (title : String) (detailed : DetailedMatch) : Match :=
  let m : Match := { title := title }
  let m := match detailed.ruleDescription with
    | some d => { m with description := d }
    | none => m
  let m := match detailed.pattern with
    | some p => { m with pattern := p }
    | none => m
  let m := match detailed.fileName with
    | some f => { m with filename := f }
    | none => m
  match detailed.tags with
  | some (t :: _) => { m with tags := t }
  | _ => m

/-- load_tags (util.py:341-360): create an InspectorTag from a
detailed-match element. -/
def load_tags (d : DetailedMatch) : InspectorTag :=
  let t : InspectorTag :=
    { start_line := d.startLocationLine
      start_column := d.startLocationColumn
      end_column := d.endLocationColumn
      end_line := d.endLocationLine
      excerpt := d.excerpt
      filename := (d.fileName).getD "" }
  match d.severity with
  | some s => { t with severity := s }
  | none => t

/-- Append a tag to the first match carrying the given title. -/
def appendTagToFirst : List Match → String → InspectorTag → List Match
  | [], _, _ => []
  | m :: ms, t, tag =>
    if m.title = t then
      { m with tag := m.tag ++ [tag] } :: ms
    else
      m :: appendTagToFirst ms t tag

/-- One iteration of the loop of load_scan_app_inspector
(util.py:302-313), with the same misplaced-assignment state as
load_scan_results_step. -/
def load_app_inspector_step (st : List Match × Option Nat)
    (d : DetailedMatch) : List Match × Option Nat :=
  let title := d.ruleName
  if (st.1.filter (fun m => m.title = title)).isEmpty then
    let n_match := load_match title d
    (st.1 ++ [{ n_match with tag := n_match.tag ++ [load_tags d] }], st.2)
  else
    let ms := appendTagToFirst st.1 title (load_tags d)
    (ms, some ms.length)

/-- load_scan_app_inspector (util.py:287-313): populate an AppInspector
with the inspector results; `none` embeds an empty payload or one
without `metaData` / `detailedMatchList`. -/
def load_scan_app_inspector (app_inspector : AppInspectorState)
    (result : Option (List DetailedMatch)) : AppInspectorState :=
  match result with
  | none => app_inspector
  | some detailed =>
    match detailed.foldl load_app_inspector_step ([], none) with
    | (_, none) => app_inspector
    | (ms, some n) => { app_inspector with match_list := ms.take n }

/-!  ## Scanner adapters (util.py:116-210) and the orchestrator (util.py:61-105)

Python exceptions are embedded as an explicit error type.  The semgrep
engine (an external library) is embedded by its observable outcome: it
either returns a built JSON output (represented by its parsed content)
or raises SemgrepError, in which case the output handler holds a list of
structured errors.  `application_inspector_scan` and the depscan / cdxgen
process invocations are external collaborators; the depscan result file
that sca_scan reads back is passed in explicitly (`none` embeds a
missing file, `some lines` a file with the given decoded lines). -/

/-- A structured error held by the semgrep output handler. -/
structure SemgrepStructuredError where
  long_msg : String
deriving DecidableEq, Repr

/-- Exceptions the embedded pipeline can raise. -/
inductive PyExc where
  /-- `Exception("SemgrepError", long_msg)` raised by semgrep_scan
  (util.py:208-210); the spec calls this the typed ScanToolError. -/
  | scanToolError (tag : String) (msg : String)
  /-- IndexError from indexing an empty list. -/
  | indexError
  /-- FileNotFoundError from `open` on a missing file. -/
  | fileNotFound (path : String)
  /-- The semgrep-internal exception type SemgrepError. -/
  | semgrepInternal (msg : String)
  /-- Any other exception (e.g. from the inspector adapter). -/
  | other (msg : String)
deriving DecidableEq, Repr

/-- Embedding of `repr(e)` as used for Project.error_message (util.py:86): the class
name followed by the arguments.  Always a non-empty string. -/
def reprExc : PyExc → String
  | PyExc.scanToolError tag msg => "Exception(" ++ (tag ++ (", " ++ (msg ++ ")")))
  | PyExc.indexError => "IndexError(" ++ "list index out of range)"
  | PyExc.fileNotFound p => "FileNotFoundError(" ++ (p ++ ")")
  | PyExc.semgrepInternal msg => "SemgrepError(" ++ (msg ++ ")")
  | PyExc.other msg => "Exception(" ++ (msg ++ ")")

/-- The observable behaviour of one invocation of the semgrep engine. -/
inductive EngineOutcome where
  /-- Case where `semgrep_main.main` returns and `_build_output()` yields this
  payload (embedded by its parsed content). -/
  | ok (output : Option (List SemgrepResult))
  /-- Case where `semgrep_main.main` raises SemgrepError while the output handler
  holds these structured errors. -/
  | semgrepError (structured_errors : List SemgrepStructuredError)
deriving DecidableEq, Repr

/-- semgrep_scan (util.py:153-210): run the engine; a SemgrepError is
caught and re-raised as `Exception("SemgrepError", first structured
error's long_msg)`.  Indexing `semgrep_structured_errors[0]` on an empty
list raises IndexError instead. -/
def semgrep_scan (engine : EngineOutcome) :
    Except PyExc (Option (List SemgrepResult)) :=
  match engine with
  | EngineOutcome.ok output => Except.ok output
  | EngineOutcome.semgrepError errs =>
    match errs with
    | [] => Except.error PyExc.indexError
    | e :: _ => Except.error (PyExc.scanToolError "SemgrepError" e.long_msg)

/-- sca_scan (util.py:116-150): after the cdxgen and depscan process
invocations (external, unchecked), read the depscan result file line by
line.  `open` on a missing file raises FileNotFoundError; an existing
file yields one decoded record per line. -/
def sca_scan (result_file : Option (List DepscanRecord)) :
    Except PyExc (List DepscanRecord) :=
  match result_file with
  | none => Except.error (PyExc.fileNotFound DEPSCAN_RESULT_FILE)
  | some lines => Except.ok lines

/-- The environment of one orchestrator run: the outcome of each of the
three external scanner interactions, in the order the code consumes
them. -/
structure ScanEnv where
  /-- Contents of the depscan result file read back by sca_scan. -/
  depscan_result_file : Option (List DepscanRecord)
  /-- Behaviour of the semgrep engine invocation. -/
  engine : EngineOutcome
  /-- Modelled from the spec: the outcome of application_inspector_scan
  (app/projects/util.py is not under the sources): a decoded payload or
  a raised exception. -/
  inspector : Except PyExc (Option (List DetailedMatch))

/-- The scan phase of async_scan (util.py:80-84): sca_scan, then
semgrep_scan, then application_inspector_scan, stopping at the first
exception (the remaining calls never run). -/
def scan_phase (env : ScanEnv) :
    Except PyExc
      (List DepscanRecord × Option (List SemgrepResult) ×
        Option (List DetailedMatch)) :=
  match sca_scan env.depscan_result_file with
  | Except.error e => Except.error e
  | Except.ok sca_result =>
    match semgrep_scan env.engine with
    | Except.error e => Except.error e
    | Except.ok semgrep_result =>
      match env.inspector with
      | Except.error e => Except.error e
      | Except.ok app_inspector_result =>
        Except.ok (sca_result, semgrep_result, app_inspector_result)

/-- Helper functions of async_scan living outside src
(count_occurences, calculate_risk_level and generate_severity are in
app/projects/util.py and app/rules/util.py); they are taken as
parameters so no behaviour is invented for them. -/
structure Helpers where
  generate_severity : String → String
  count_occurences : List Vulnerability → Nat
  calculate_risk_level :
    List Vulnerability → List VulnerableDependency → Nat

/-- The whole mutable state touched by one orchestrator run. -/
structure SysState where
  analysis : AnalysisState
  app_inspector : AppInspectorState
deriving DecidableEq, Repr

/-- Job start (util.py:72-75): record the start timestamp, set the
project status to ANALYZING and store the cancellation handle. -/
def mark_analyzing (task_id : String) (started : Nat)
    (a : AnalysisState) : AnalysisState :=
  { a with
    started_on := some started
    task_id := task_id
    project := { a.project with status := Status.analyzing } }

/-- async_scan (util.py:61-105): the orchestrator.  Step the state
through job start, the scan phase, the normalizers or the error branch,
and the always-run epilogue (finish timestamp, cleared task handle,
recomputed project counters).  Writing the raw semgrep output to the
per-analysis artifact file (save_result) is file I/O with no effect on
the modelled state and is omitted. -/
def async_scan (h : Helpers) (env : ScanEnv) (task_id : String)
    (started finished : Nat) (st : SysState) : SysState :=
  let a1 := mark_analyzing task_id started st.analysis
  let stage :=
    match scan_phase env with
    | Except.error e =>
      ({ a1 with
          project :=
            { a1.project with
              error_message := reprExc e
              status := Status.error } },
        st.app_inspector)
    | Except.ok (sca_result, semgrep_result, app_inspector_result) =>
      let a2 := load_scan_results h.generate_severity a1 semgrep_result
      let a3 := load_sca_scan_results a2 sca_result
      ({ a3 with project := { a3.project with status := Status.finished } },
        load_scan_app_inspector st.app_inspector app_inspector_result)
  let a4 := stage.1
  { analysis :=
      { a4 with
        finished_on := some finished
        task_id := ""
        project :=
          { a4.project with
            occurences_count := h.count_occurences a4.vulnerabilities
            risk_level :=
              h.calculate_risk_level a4.vulnerabilities
                a4.vulnerable_dependencies } }
    app_inspector := stage.2 }

/-!  ## ScanOptionsBuilder and RuleStager (util.py:420-485) -/

/-- A language of a rule pack, with its comma-separated extension
field. -/
structure RuleLanguage where
  extensions : String
deriving DecidableEq, Repr

/-- One rule of a rule pack: the on-disk source file plus the parts of
its staged name (`c_rule.repository.name`, category, title). -/
structure Rule where
  repository_name : String
  category : String
  title : String
  file_path : String
deriving DecidableEq, Repr

/-- A rule pack groups rules and languages. -/
structure RulePack where
  languages : List RuleLanguage := []
  rules : List Rule := []
deriving DecidableEq, Repr

/-- The stored configuration of an analysis that the options builder and
the rule stager read. -/
structure AnalysisConfig where
  project_id : Nat
  ignore_filenames : String
  rule_packs : List RulePack
deriving DecidableEq, Repr

/-- Embedding of `glob(os.path.join(scan_path, "**", "*" + ext), recursive=True)` over
an explicit filesystem (the list of existing file paths): the files below
`scan_path` whose name ends with the extension. -/
def glob_recursive (fs : List String) (scan_path ext : String) :
    List String :=
  fs.filter (fun p => p.startsWith (scan_path ++ "/") && p.endsWith ext)

/-- generate_semgrep_options (util.py:420-454): the files to scan
(recursive glob per non-empty extension of each language of each
selected rule pack), the project rules path, and the ignore set (the
ignore-filenames string split on commas, empty entries discarded; the
Python set is embedded as a deduplicated list). -/
def generate_semgrep_options (fs : List String)
    (analysis : AnalysisConfig) :
    List String × String × List String :=
  let scan_path :=
    PROJECTS_SRC_PATH ++ "/" ++ toString analysis.project_id ++ "/" ++
      EXTRACT_FOLDER_NAME
  let project_rules_path :=
    PROJECTS_SRC_PATH ++ "/" ++ toString analysis.project_id ++ "/rules"
  let ignore :=
    ((analysis.ignore_filenames.splitOn ",").filter (fun x => x ≠ "")).dedup
  let files_to_scan :=
    analysis.rule_packs.flatMap (fun pack =>
      pack.languages.flatMap (fun lang =>
        ((lang.extensions.splitOn ",").filter (fun x => x ≠ "")).flatMap
          (fun ext => glob_recursive fs scan_path ext)))
  (files_to_scan, project_rules_path, ignore)

/-- The staged name of a rule (util.py:470-478):
`<repository-name>_<rule-category>.<rule-title><canonical-rule-extension>`. -/
def generated_rule_name (r : Rule) : String :=
  r.repository_name ++ "_" ++ r.category ++ "." ++ r.title ++
    CANONICAL_RULE_EXTENSION

/-- Embedding of `copyfile(src, dst)`: write (or overwrite) one file in a directory. -/
def write_file : List (String × String) → String → String →
    List (String × String)
  | [], name, contents => [(name, contents)]
  | (m, c) :: rest, name, contents =>
    if m = name then (name, contents) :: rest
    else (m, c) :: write_file rest name contents

/-- import_rules (util.py:457-485): delete and recreate the destination
directory (the prior contents are discarded), then copy every rule of
every selected rule pack under its generated name.  The disk holds the
rule source files (`RULES_PATH/<rule.file_path>` -> contents). -/
def import_rules (disk : String → String) (analysis : AnalysisConfig)
    (_prior : List (String × String)) : List (String × String) :=
  analysis.rule_packs.foldl
    (fun d pack =>
      pack.rules.foldl
        (fun d r =>
          write_file d (generated_rule_name r)
            (disk (RULES_PATH ++ "/" ++ r.file_path)))
        d)
    []

/-!  ## vulnerabilities_sorted_by_severity (util.py:487-506) -/

/-- One iteration of the loop of vulnerabilities_sorted_by_severity:
high severity is pushed to the front of `r_vulns` (`insert(0, ...)`),
medium appended to `r_vulns`, anything else appended to `low_vulns`. -/
def sort_severity_step (p : List Vulnerability × List Vulnerability)
    (v : Vulnerability) : List Vulnerability × List Vulnerability :=
  if v.severity = SEVERITY_HIGH then (v :: p.1, p.2)
  else if v.severity = SEVERITY_MEDIUM then (p.1 ++ [v], p.2)
  else (p.1, p.2 ++ [v])

/-- vulnerabilities_sorted_by_severity: iterate over the analysis's
vulnerabilities with sort_severity_step, then return
`r_vulns ++ low_vulns`. -/
def vulnerabilities_sorted_by_severity
    (vulnerabilities : List Vulnerability) : List Vulnerability :=
  let acc := vulnerabilities.foldl sort_severity_step ([], [])
  acc.1 ++ acc.2

/-- The severity test of the first branch of the sorter loop. -/
def is_high (v : Vulnerability) : Bool := v.severity = SEVERITY_HIGH

/-- The severity test of the second branch of the sorter loop. -/
def is_medium (v : Vulnerability) : Bool := v.severity = SEVERITY_MEDIUM

/-- Any severity that is neither high nor medium. -/
def is_other (v : Vulnerability) : Bool := !is_high v && !is_medium v

/-- Test whether an adapter outcome is the typed ScanToolError
(`Exception("SemgrepError", msg)`). -/
def is_scan_tool_error {α : Type} : Except PyExc α → Bool
  | Except.error (PyExc.scanToolError _ _) => true
  | _ => false

/-- Test whether an adapter outcome is the engine-internal SemgrepError
type. -/
def is_semgrep_internal {α : Type} : Except PyExc α → Bool
  | Except.error (PyExc.semgrepInternal _) => true
  | _ => false

/-- Whether the strip pattern still matches somewhere in a path. -/
def path_has_strip_match (s : String) : Bool :=
  hasStripMatch PROJECTS_SRC_PATH.data EXTRACT_FOLDER_NAME.data s.data

/-- A semgrep result record whose title has not been seen before. -/
def sample_fresh_result : SemgrepResult :=
  { check_id := "rules.python.sqli"
    path := "data/projects/1/extract/app.py"
    start_line := 1
    start_col := 1
    end_line := 1
    end_col := 10
    lines := "q" }

/-- An analysis that has not stored any result yet. -/
def sample_initial_analysis : AnalysisState :=
  { project := { status := Status.pending } }

/-- Concrete helper functions for closed evaluations. -/
def sample_helpers : Helpers :=
  { generate_severity := fun _ => ""
    count_occurences := fun _ => 0
    calculate_risk_level := fun _ _ => 0 }

/-- A concrete pre-scan system state with empty collections. -/
def sample_sys_state : SysState :=
  { analysis := sample_initial_analysis, app_inspector := {} }

theorem stripLit_length_le {p s t : List Char} (h : stripLit p s = some t) :
    t.length ≤ s.length := by
  induction p generalizing s with
  | nil => simp [stripLit] at h; simp [h]
  | cons a ps ih =>
    cases s with
    | nil => simp [stripLit] at h
    | cons c cs =>
      simp only [stripLit] at h
      by_cases hac : a = c
      · simp [hac] at h
        exact Nat.le_succ_of_le (ih h)
      · simp [hac] at h

theorem optSlash_length_le (s : List Char) :
    (optSlash s).length ≤ s.length := by
  cases s with
  | nil => simp [optSlash]
  | cons c cs =>
    simp only [optSlash]
    by_cases h : isSlashChar c = true
    · simp [h]
    · simp [h]

theorem length_dropWhile_le (p : Char → Bool) (l : List Char) :
    (l.dropWhile p).length ≤ l.length := by
  induction l with
  | nil => simp [List.dropWhile]
  | cons c cs ih =>
    simp only [List.dropWhile]
    by_cases h : p c = true
    · simp only [h]
      exact Nat.le_succ_of_le ih
    · simp [h]

theorem matchStripPatternAt_length_lt {root extract s t : List Char}
    (h : matchStripPatternAt root extract s = some t) :
    t.length < s.length := by
  unfold matchStripPatternAt at h
  cases h1 : stripLit root s with
  | none => simp [h1] at h
  | some s1 =>
    simp only [h1] at h
    have hs1 : s1.length ≤ s.length := stripLit_length_le h1
    cases h2 : optSlash s1 with
    | nil => simp [h2] at h
    | cons c cs =>
      simp only [h2] at h
      have hs2 : (optSlash s1).length ≤ s1.length := optSlash_length_le s1
      rw [h2] at hs2
      by_cases hd : c.isDigit = true
      · simp only [hd, if_true] at h
        cases h3 : cs.dropWhile Char.isDigit with
        | nil => simp [h3] at h
        | cons d ds =>
          simp only [h3] at h
          have hs3 : (cs.dropWhile Char.isDigit).length ≤ cs.length :=
            length_dropWhile_le Char.isDigit cs
          rw [h3] at hs3
          by_cases hsl : isSlashChar d = true
          · simp only [hsl, if_true] at h
            cases h4 : stripLit extract ds with
            | none => simp [h4] at h
            | some s4 =>
              simp only [h4, Option.some.injEq] at h
              have hs4 : s4.length ≤ ds.length := stripLit_length_le h4
              have hs5 : (optSlash s4).length ≤ s4.length := optSlash_length_le s4
              rw [h] at hs5
              simp only [List.length_cons] at hs2 hs3
              omega
          · simp [hsl] at h
      · simp [hd] at h

theorem reSubAux_fuel_irrelevant (root extract : List Char) :
    ∀ fuel1 fuel2 s, s.length < fuel1 → s.length < fuel2 →
      reSubAux root extract fuel1 s = reSubAux root extract fuel2 s := by
  intro fuel1
  induction fuel1 with
  | zero => intro fuel2 s h1 _; omega
  | succ f ih =>
    intro fuel2 s h1 h2
    cases fuel2 with
    | zero => omega
    | succ g =>
      cases s with
      | nil => simp [reSubAux]
      | cons c cs =>
        simp only [reSubAux]
        cases hm : matchStripPatternAt root extract (c :: cs) with
        | some rest =>
          have hlt : rest.length < (c :: cs).length :=
            matchStripPatternAt_length_lt hm
          simp only [List.length_cons] at hlt h1 h2
          exact ih g rest (by omega) (by omega)
        | none =>
          simp only [List.length_cons] at h1 h2
          rw [ih g cs (by omega) (by omega)]

/-- Unfolding equation of `reSub` on a non-empty input. -/
theorem reSub_cons (root extract : List Char) (c : Char) (cs : List Char) :
    reSub root extract (c :: cs) =
      match matchStripPatternAt root extract (c :: cs) with
      | some rest => reSub root extract rest
      | none => c :: reSub root extract cs := by
  unfold reSub
  simp only [List.length_cons, reSubAux]
  cases hm : matchStripPatternAt root extract (c :: cs) with
  | some rest =>
    have hlt : rest.length < (c :: cs).length :=
      matchStripPatternAt_length_lt hm
    simp only [List.length_cons] at hlt
    exact reSubAux_fuel_irrelevant root extract (cs.length + 1) (rest.length + 1)
      rest (by omega) (by omega)
  | none => rfl

/-- A match-free string is left unchanged by the substitution. -/
theorem reSub_of_no_match {root extract : List Char} :
    ∀ {s : List Char}, hasStripMatch root extract s = false →
      reSub root extract s = s := by
  intro s
  induction s with
  | nil => intro _; simp [reSub, reSubAux]
  | cons c cs ih =>
    intro h
    simp only [hasStripMatch, Bool.or_eq_false_iff] at h
    rw [reSub_cons]
    cases hm : matchStripPatternAt root extract (c :: cs) with
    | some rest => rw [hm] at h; simp [Option.isSome] at h
    | none => simp only []; rw [ih h.2]

theorem sort_severity_foldl (l : List Vulnerability) :
    ∀ hAcc mAcc lAcc : List Vulnerability,
      l.foldl sort_severity_step (hAcc.reverse ++ mAcc, lAcc) =
        ((hAcc ++ l.filter is_high).reverse ++ (mAcc ++ l.filter is_medium),
          lAcc ++ l.filter is_other) := by
  induction l with
  | nil => intro hAcc mAcc lAcc; simp
  | cons v vs ih =>
    intro hAcc mAcc lAcc
    simp only [List.foldl_cons]
    by_cases hh : v.severity = SEVERITY_HIGH
    · have hstep : sort_severity_step (hAcc.reverse ++ mAcc, lAcc) v =
          ((hAcc ++ [v]).reverse ++ mAcc, lAcc) := by
        simp [sort_severity_step, hh]
      rw [hstep, ih (hAcc ++ [v]) mAcc lAcc]
      have h1 : is_high v = true := by simp [is_high, hh]
      have h2 : is_medium v = false := by
        simp [is_medium, hh, SEVERITY_HIGH, SEVERITY_MEDIUM]
      simp [List.filter_cons, h1, h2, is_other, List.append_assoc]
    · by_cases hm : v.severity = SEVERITY_MEDIUM
      · have hstep : sort_severity_step (hAcc.reverse ++ mAcc, lAcc) v =
            (hAcc.reverse ++ (mAcc ++ [v]), lAcc) := by
          simp only [sort_severity_step]
          rw [if_neg hh, if_pos hm, List.append_assoc]
        rw [hstep, ih hAcc (mAcc ++ [v]) lAcc]
        have h1 : is_high v = false := by simp [is_high, hh]
        have h2 : is_medium v = true := by simp [is_medium, hm]
        simp [List.filter_cons, h1, h2, is_other, List.append_assoc]
      · have hstep : sort_severity_step (hAcc.reverse ++ mAcc, lAcc) v =
            (hAcc.reverse ++ mAcc, lAcc ++ [v]) := by
          simp only [sort_severity_step]
          rw [if_neg hh, if_neg hm]
        rw [hstep, ih hAcc mAcc (lAcc ++ [v])]
        have h1 : is_high v = false := by simp [is_high, hh]
        have h2 : is_medium v = false := by simp [is_medium, hm]
        simp [List.filter_cons, h1, h2, is_other, List.append_assoc]

/-- C10: vulnerabilities_sorted_by_severity returns the high-severity
vulnerabilities in reverse encounter order, followed by the
medium-severity ones in encounter order, followed by all remaining ones
in encounter order; the result is a permutation of the input. -/
theorem c10_vulnerabilities_sorted_by_severity_order
    (vulns : List Vulnerability) :
    vulnerabilities_sorted_by_severity vulns =
      (vulns.filter is_high).reverse ++ vulns.filter is_medium ++
        vulns.filter is_other ∧
      (vulnerabilities_sorted_by_severity vulns).Perm vulns := by
  have hfold := sort_severity_foldl vulns [] [] []
  simp only [List.reverse_nil, List.nil_append] at hfold
  have heq : vulnerabilities_sorted_by_severity vulns =
      (vulns.filter is_high).reverse ++ vulns.filter is_medium ++
        vulns.filter is_other := by
    simp [vulnerabilities_sorted_by_severity, hfold, List.append_assoc]
  refine ⟨heq, ?_⟩
  have hMO : List.Perm
      (vulns.filter is_medium ++ vulns.filter is_other)
      (vulns.filter (fun v => !is_high v)) := by
    have hbase := List.filter_append_perm is_medium
      (vulns.filter (fun v => !is_high v))
    have hA : (vulns.filter (fun v => !is_high v)).filter is_medium =
        vulns.filter is_medium := by
      rw [List.filter_filter]
      refine List.filter_congr ?_
      intro x _
      by_cases hx : x.severity = SEVERITY_MEDIUM
      · simp [is_medium, is_high, hx, SEVERITY_HIGH, SEVERITY_MEDIUM]
      · simp [is_medium, hx]
    have hB : (vulns.filter (fun v => !is_high v)).filter
        (fun v => !is_medium v) = vulns.filter is_other := by
      rw [List.filter_filter]
      refine List.filter_congr ?_
      intro x _
      simp [is_other, Bool.and_comm]
    rw [hA, hB] at hbase
    exact hbase
  have hH := List.filter_append_perm is_high vulns
  rw [heq, List.append_assoc]
  exact (((List.reverse_perm _).append_right
      (vulns.filter is_medium ++ vulns.filter is_other)).trans
    (hMO.append_left (vulns.filter is_high))).trans hH

theorem write_file_key_mem (d : List (String × String)) (m x n : String) :
    (∃ c, (n, c) ∈ write_file d m x) ↔ n = m ∨ ∃ c, (n, c) ∈ d := by
  induction d with
  | nil => simp [write_file]
  | cons p rest ih =>
    obtain ⟨pm, pc⟩ := p
    by_cases hm : pm = m
    · subst hm
      simp only [write_file, if_pos rfl, List.mem_cons, Prod.mk.injEq]
      aesop
    · simp only [write_file, if_neg hm, List.mem_cons, Prod.mk.injEq]
      constructor
      · rintro ⟨c, (⟨h1, _⟩ | h)⟩
        · exact Or.inr ⟨pc, Or.inl ⟨h1, rfl⟩⟩
        · rcases ih.mp ⟨c, h⟩ with h2 | ⟨c2, h2⟩
          · exact Or.inl h2
          · exact Or.inr ⟨c2, Or.inr h2⟩
      · rintro (h | ⟨c, (⟨h1, _⟩ | h)⟩)
        · obtain ⟨c, hc⟩ := ih.mpr (Or.inl h)
          exact ⟨c, Or.inr hc⟩
        · exact ⟨pc, Or.inl ⟨h1, rfl⟩⟩
        · obtain ⟨c2, hc2⟩ := ih.mpr (Or.inr ⟨c, h⟩)
          exact ⟨c2, Or.inr hc2⟩

theorem rules_foldl_key_mem (disk : String → String) (rules : List Rule) :
    ∀ (d : List (String × String)) (n : String),
      (∃ c, (n, c) ∈ rules.foldl
          (fun d r => write_file d (generated_rule_name r)
            (disk (RULES_PATH ++ "/" ++ r.file_path))) d) ↔
        (∃ r ∈ rules, generated_rule_name r = n) ∨ ∃ c, (n, c) ∈ d := by
  induction rules with
  | nil => intro d n; simp
  | cons r rs ih =>
    intro d n
    simp only [List.foldl_cons]
    rw [ih]
    rw [write_file_key_mem]
    simp only [List.mem_cons]
    constructor
    · rintro (⟨r2, hr2, hn⟩ | (hn | hmem))
      · exact Or.inl ⟨r2, Or.inr hr2, hn⟩
      · exact Or.inl ⟨r, Or.inl rfl, hn.symm⟩
      · exact Or.inr hmem
    · rintro (⟨r2, (rfl | hr2), hn⟩ | hmem)
      · exact Or.inr (Or.inl hn.symm)
      · exact Or.inl ⟨r2, hr2, hn⟩
      · exact Or.inr (Or.inr hmem)

theorem packs_foldl_key_mem (disk : String → String)
    (packs : List RulePack) :
    ∀ (d : List (String × String)) (n : String),
      (∃ c, (n, c) ∈ packs.foldl
          (fun d pack => pack.rules.foldl
            (fun d r => write_file d (generated_rule_name r)
              (disk (RULES_PATH ++ "/" ++ r.file_path))) d) d) ↔
        (∃ pack ∈ packs, ∃ r ∈ pack.rules, generated_rule_name r = n) ∨
          ∃ c, (n, c) ∈ d := by
  induction packs with
  | nil => intro d n; simp
  | cons pack ps ih =>
    intro d n
    simp only [List.foldl_cons]
    rw [ih, rules_foldl_key_mem]
    simp only [List.mem_cons]
    constructor
    · rintro (⟨p2, hp2, hr⟩ | (hr | hmem))
      · exact Or.inl ⟨p2, Or.inr hp2, hr⟩
      · exact Or.inl ⟨pack, Or.inl rfl, hr⟩
      · exact Or.inr hmem
    · rintro (⟨p2, (rfl | hp2), hr⟩ | hmem)
      · exact Or.inr (Or.inl hr)
      · exact Or.inl ⟨p2, hp2, hr⟩
      · exact Or.inr (Or.inr hmem)

/-- C7: import_rules wipes the destination directory and then stages one
file per rule of every selected pack under its generated deterministic
name: the result does not depend on the directory's prior contents (in
particular a second call right after a first one reproduces exactly the
same directory, with no leftovers), and a file name is present in the
result exactly when it is the generated name of a rule of a selected
pack. -/
theorem c7_import_rules_idempotent_and_exact (disk : String → String)
    (analysis : AnalysisConfig) (prior prior2 : List (String × String)) :
    import_rules disk analysis
        (import_rules disk analysis prior) =
      import_rules disk analysis prior ∧
    import_rules disk analysis prior = import_rules disk analysis prior2 ∧
    ∀ n : String,
      (∃ c, (n, c) ∈ import_rules disk analysis prior) ↔
        ∃ pack ∈ analysis.rule_packs, ∃ r ∈ pack.rules,
          generated_rule_name r = n := by
  refine ⟨rfl, rfl, ?_⟩
  intro n
  unfold import_rules
  rw [packs_foldl_key_mem]
  simp

/-- C8: generate_semgrep_options yields (a) exactly the files below the
project's extracted-source root whose name ends with a non-empty
extension declared by some language of some selected rule pack, and (b)
the ignore set obtained by splitting the analysis's ignore-filenames
string on commas and discarding empty entries.  The embedding is a pure
function of the stored configuration and the given filesystem, and an
empty filesystem yields an empty file collection. -/
theorem c8_generate_semgrep_options_spec (fs : List String)
    (analysis : AnalysisConfig) :
    (∀ p : String,
      p ∈ (generate_semgrep_options fs analysis).1 ↔
        ∃ pack ∈ analysis.rule_packs, ∃ lang ∈ pack.languages,
          ∃ ext ∈ (lang.extensions.splitOn ",").filter (fun x => x ≠ ""),
            p ∈ fs ∧
              p.startsWith (PROJECTS_SRC_PATH ++ "/" ++
                toString analysis.project_id ++ "/" ++
                EXTRACT_FOLDER_NAME ++ "/") = true ∧
              p.endsWith ext = true) ∧
    (∀ x : String,
      x ∈ (generate_semgrep_options fs analysis).2.2 ↔
        x ∈ analysis.ignore_filenames.splitOn "," ∧ x ≠ "") ∧
    (generate_semgrep_options [] analysis).1 = [] := by
  refine ⟨?_, ?_, ?_⟩
  · intro p
    simp [generate_semgrep_options, glob_recursive, List.mem_flatMap,
      List.mem_filter, and_assoc]
  · intro x
    simp [generate_semgrep_options, List.mem_dedup, List.mem_filter]
  · simp [generate_semgrep_options, glob_recursive]

theorem reprExc_ne_empty (e : PyExc) : reprExc e ≠ "" := by
  cases e <;>
    (intro h
     have h2 := congrArg String.length h
     simp [reprExc, String.length_append] at h2
     first
     | exact absurd h2.1 (by decide)
     | exact absurd h2 (by decide))

/-- C9 counterexample: when the engine raises SemgrepError while its
output handler holds no structured error, semgrep_scan re-raises the
IndexError from `semgrep_structured_errors[0]`, not a typed
ScanToolError carrying a message. -/
theorem c9_counterexample_empty_structured_errors :
    semgrep_scan (EngineOutcome.semgrepError []) =
        Except.error PyExc.indexError ∧
      is_scan_tool_error (semgrep_scan (EngineOutcome.semgrepError [])) =
        false := by
  exact ⟨rfl, rfl⟩

/-- C9 (amended): whenever the engine raises its internal SemgrepError
with at least one structured error recorded, semgrep_scan catches it and
re-raises the single typed error `Exception("SemgrepError", long_msg)`
built from the first structured error; and for every engine outcome the
engine-internal exception type never propagates out of the adapter. -/
theorem c9_semgrep_scan_converts_internal_error :
    (∀ (e : SemgrepStructuredError) (rest : List SemgrepStructuredError),
      semgrep_scan (EngineOutcome.semgrepError (e :: rest)) =
        Except.error (PyExc.scanToolError "SemgrepError" e.long_msg)) ∧
    ∀ engine : EngineOutcome,
      is_semgrep_internal (semgrep_scan engine) = false := by
  constructor
  · intro e rest; rfl
  · intro engine
    cases engine with
    | ok o => rfl
    | semgrepError errs => cases errs with | nil => rfl | cons e es => rfl

/-- C5 counterexample: the re.sub-based strip is not idempotent.
Removing the embedded full match from this path splices the surrounding
characters into a brand-new match, so a second strip removes more: one
strip yields "data/projects/1/extract", a second strip yields "". -/
theorem c5_counterexample_strip_not_idempotent :
    stripScanRootFromPath (stripScanRootFromPath
        "dadata/projects/1/extractta/projects/1/extract") ≠
      stripScanRootFromPath
        "dadata/projects/1/extractta/projects/1/extract" := by
  decide

/-- C5 (amended): stripping is idempotent on every path whose
once-stripped form contains no further occurrence of the strip pattern
(in particular on ordinary reported paths, where the scan-root prefix
occurs as a plain prefix); in general re.sub can splice a new match
together and is not idempotent. -/
theorem c5_strip_idempotent_without_residual_match (s : String)
    (h : path_has_strip_match (stripScanRootFromPath s) = false) :
    stripScanRootFromPath (stripScanRootFromPath s) =
      stripScanRootFromPath s := by
  unfold stripScanRootFromPath
  unfold path_has_strip_match stripScanRootFromPath at h
  exact congrArg String.mk (reSub_of_no_match h)

/-- C5 witness: a concrete reported path with the scan-root prefix whose
stripped form is match-free, on which stripping twice equals stripping
once. -/
theorem c5_strip_idempotent_witness :
    path_has_strip_match
        (stripScanRootFromPath "data/projects/1/extract/src/main.py") =
      false ∧
    stripScanRootFromPath (stripScanRootFromPath
        "data/projects/1/extract/src/main.py") =
      stripScanRootFromPath "data/projects/1/extract/src/main.py" :=
  ⟨by decide,
    c5_strip_idempotent_without_residual_match
      "data/projects/1/extract/src/main.py" (by decide)⟩

/-- C6 counterexample: load_occurence copies the reported start/end
lines verbatim, so a malformed record whose end line precedes its start
line yields an Occurence violating line_end >= line_start — nothing is
rejected or clipped. -/
theorem c6_counterexample_no_clipping :
    ¬ ((load_occurence
          { check_id := "rules.python.sqli"
            path := "foo.py"
            start_line := 5
            start_col := 1
            end_line := 3
            end_col := 2
            lines := "x" }).position.line_start ≤
        (load_occurence
          { check_id := "rules.python.sqli"
            path := "foo.py"
            start_line := 5
            start_col := 1
            end_line := 3
            end_col := 2
            lines := "x" }).position.line_end) := by
  decide

/-- C6 (amended): load_occurence copies positions verbatim, so the
invariant line_end >= line_start holds for the produced Occurence
exactly when the input record already satisfies it (which well-formed
semgrep output does); no rejection or clipping is performed. -/
theorem c6_load_occurence_preserves_line_order (r : SemgrepResult)
    (h : r.start_line ≤ r.end_line) :
    (load_occurence r).position.line_start ≤
      (load_occurence r).position.line_end := by
  simpa [load_occurence] using h

/-- C6 witness: a well-formed record produces an occurrence with ordered
lines. -/
theorem c6_load_occurence_witness :
    (1 : Nat) ≤ 4 ∧
      (load_occurence
          { check_id := "rules.python.sqli"
            path := "data/projects/1/extract/app.py"
            start_line := 1
            start_col := 2
            end_line := 4
            end_col := 3
            lines := "y" }).position.line_start ≤
        (load_occurence
          { check_id := "rules.python.sqli"
            path := "data/projects/1/extract/app.py"
            start_line := 1
            start_col := 2
            end_line := 4
            end_col := 3
            lines := "y" }).position.line_end :=
  ⟨by decide,
    c6_load_occurence_preserves_line_order
      { check_id := "rules.python.sqli"
        path := "data/projects/1/extract/app.py"
        start_line := 1
        start_col := 2
        end_line := 4
        end_col := 3
        lines := "y" } (by decide)⟩

theorem load_scan_results_vulnerable_dependencies
    (gs : String → String) (a : AnalysisState)
    (o : Option (List SemgrepResult)) :
    (load_scan_results gs a o).vulnerable_dependencies =
      a.vulnerable_dependencies := by
  unfold load_scan_results
  cases o with
  | none => rfl
  | some rs =>
    rcases hst : List.foldl (load_scan_results_step gs) ([], none) rs with ⟨vulns, k⟩
    cases k <;> simp [hst]

theorem load_scan_results_project (gs : String → String)
    (a : AnalysisState) (o : Option (List SemgrepResult)) :
    (load_scan_results gs a o).project = a.project := by
  unfold load_scan_results
  cases o with
  | none => rfl
  | some rs =>
    rcases hst : List.foldl (load_scan_results_step gs) ([], none) rs with ⟨vulns, k⟩
    cases k <;> simp [hst]

/-- C1 (code bug): on a payload with one record — one distinct title,
never seen before — the loop of load_scan_results builds the
Vulnerability titled "sqli" in its local list, but the statement storing
the list into the analysis sits inside the duplicate-title branch
(util.py:257) and never executes, so the analysis keeps its empty
vulnerabilities collection instead of receiving exactly one
Vulnerability per distinct title. -/
theorem c1_load_scan_results_drops_all_fresh_titles :
    load_scan_results (fun _ => "") sample_initial_analysis
        (some [sample_fresh_result]) = sample_initial_analysis ∧
      ((List.foldl (load_scan_results_step (fun _ => "")) ([], none)
          [sample_fresh_result]).1.map Vulnerability.title = ["sqli"] ∧
        (List.foldl (load_scan_results_step (fun _ => "")) ([], none)
          [sample_fresh_result]).2 = none) := by
  refine ⟨?_, ?_, ?_⟩ <;> decide

/-- C2: if any of the three scanner invocations raises, async_scan sets
the project status to ERROR with a non-empty captured error message and
applies none of the three normalizers (all three result collections keep
their prior contents, even when an earlier adapter had already produced
output); if all three succeed, the three normalizers are applied to the
analysis and inspector state and the status is set to FINISHED. -/
theorem c2_async_scan_fail_fast (h : Helpers) (env : ScanEnv)
    (task_id : String) (t1 t2 : Nat) (st : SysState) :
    match scan_phase env with
    | Except.error _ =>
      (async_scan h env task_id t1 t2 st).analysis.project.status =
          Status.error ∧
        (async_scan h env task_id t1 t2 st).analysis.project.error_message ≠
          "" ∧
        (async_scan h env task_id t1 t2 st).analysis.vulnerabilities =
          st.analysis.vulnerabilities ∧
        (async_scan h env task_id t1 t2 st).analysis.vulnerable_dependencies =
          st.analysis.vulnerable_dependencies ∧
        (async_scan h env task_id t1 t2 st).app_inspector.match_list =
          st.app_inspector.match_list
    | Except.ok (sca_result, semgrep_result, app_inspector_result) =>
      (async_scan h env task_id t1 t2 st).analysis.project.status =
          Status.finished ∧
        (async_scan h env task_id t1 t2 st).analysis.vulnerabilities =
          (load_sca_scan_results
            (load_scan_results h.generate_severity
              (mark_analyzing task_id t1 st.analysis) semgrep_result)
            sca_result).vulnerabilities ∧
        (async_scan h env task_id t1 t2 st).analysis.vulnerable_dependencies =
          (load_sca_scan_results
            (load_scan_results h.generate_severity
              (mark_analyzing task_id t1 st.analysis) semgrep_result)
            sca_result).vulnerable_dependencies ∧
        (async_scan h env task_id t1 t2 st).app_inspector.match_list =
          (load_scan_app_inspector st.app_inspector
            app_inspector_result).match_list := by
  cases hsp : scan_phase env with
  | error e => simp [async_scan, hsp, reprExc_ne_empty e, mark_analyzing]
  | ok triple =>
    obtain ⟨sca_result, semgrep_result, app_inspector_result⟩ := triple
    simp [async_scan, hsp]

/-- C3: on both the success and the error path, the final state of
async_scan records the finish timestamp, clears the task handle, and
recomputes the project's occurrence count and risk level from the
analysis's final collections before the final commit. -/
theorem c3_async_scan_epilogue (h : Helpers) (env : ScanEnv)
    (task_id : String) (t1 t2 : Nat) (st : SysState) :
    (async_scan h env task_id t1 t2 st).analysis.finished_on = some t2 ∧
      (async_scan h env task_id t1 t2 st).analysis.task_id = "" ∧
      (async_scan h env task_id t1 t2 st).analysis.project.occurences_count =
        h.count_occurences
          (async_scan h env task_id t1 t2 st).analysis.vulnerabilities ∧
      (async_scan h env task_id t1 t2 st).analysis.project.risk_level =
        h.calculate_risk_level
          (async_scan h env task_id t1 t2 st).analysis.vulnerabilities
          (async_scan h env task_id t1 t2 st).analysis.vulnerable_dependencies := by
  cases hsp : scan_phase env with
  | error e => simp [async_scan, hsp]
  | ok triple =>
    obtain ⟨sca_result, semgrep_result, app_inspector_result⟩ := triple
    simp [async_scan, hsp]

/-- C4 counterexample: a missing depscan result file is not treated as
zero findings — `open` raises FileNotFoundError inside sca_scan, so the
run ends with status ERROR rather than FINISHED. -/
theorem c4_counterexample_missing_result_file :
    sca_scan none = Except.error (PyExc.fileNotFound DEPSCAN_RESULT_FILE) ∧
      (async_scan sample_helpers
          { depscan_result_file := none
            engine := EngineOutcome.ok none
            inspector := Except.ok none }
          "tid" 0 1 sample_sys_state).analysis.project.status =
        Status.error := by
  exact ⟨rfl, rfl⟩

/-- C4 (amended): an *empty* depscan result file is treated as zero
findings — sca_scan returns the empty record list and, when the other
two adapters succeed, the scan still reaches FINISHED with the
vulnerable-dependency collection left empty; a *missing* result file
instead raises, which the orchestrator turns into status ERROR. -/
theorem c4_sca_scan_empty_file_zero_findings (h : Helpers)
    (engine_output : Option (List SemgrepResult))
    (insp : Option (List DetailedMatch)) (task_id : String) (t1 t2 : Nat)
    (st : SysState)
    (hdeps : st.analysis.vulnerable_dependencies = []) :
    sca_scan (some []) = Except.ok [] ∧
      (async_scan h
          { depscan_result_file := some []
            engine := EngineOutcome.ok engine_output
            inspector := Except.ok insp }
          task_id t1 t2 st).analysis.project.status = Status.finished ∧
      (async_scan h
          { depscan_result_file := some []
            engine := EngineOutcome.ok engine_output
            inspector := Except.ok insp }
          task_id t1 t2 st).analysis.vulnerable_dependencies = [] := by
  refine ⟨rfl, rfl, ?_⟩
  simp [async_scan, scan_phase, sca_scan, semgrep_scan,
    load_sca_scan_results, load_scan_results_vulnerable_dependencies,
    mark_analyzing, hdeps]

/-- C4 witness: concrete empty-result-file run reaching FINISHED. -/
theorem c4_sca_scan_empty_file_witness :
    (async_scan sample_helpers
        { depscan_result_file := some []
          engine := EngineOutcome.ok none
          inspector := Except.ok none }
        "tid" 0 1 sample_sys_state).analysis.project.status =
      Status.finished :=
  (c4_sca_scan_empty_file_zero_findings sample_helpers none none "tid" 0 1
    sample_sys_state rfl).2.1
